import Mathlib

/-!
Verification of the repository + service persistence layer of the
music-playlist manager (src/database, src/repositories, src/services).

The SQLite store is shallowly embedded: a `DBState` holds the rows of the
four tables (`users`, `songs`, `playlists`, `playlist_songs`) plus the
current clock (the value `CURRENT_TIMESTAMP` would produce).  The SQL
statements actually issued by the code are an inductive `DataStmt`, whose
semantics `applyDataStmt` implements SQLite behaviour with
`PRAGMA foreign_keys = ON` (as set in `DatabaseConnection.connect`):
primary-key / unique / foreign-key violations produce a `SqlError`, and
`ON DELETE CASCADE` is honoured.  Each statement execution additionally
carries a fault flag modelling an arbitrary storage-engine error
(`sqlite3.Error`, e.g. disk I/O), which the Python code can always
encounter; `true` means that execution raises.

`execute_update` and `execute_transaction` mirror
`DatabaseConnection.execute_update` / `execute_transaction` in
`src/database/connection.py`: commit on success, rollback (returning the
previous committed state) and re-raise on failure.  Character-level string
helpers (`pythonStrip`, `pythonTitle`, `pythonLower`) model the Python
`str` methods for ASCII data.
-/

inductive SqlError where
  | uniqueViolation
  | fkViolation
  | ioFault
  deriving DecidableEq, Repr

structure UserRow where
  id : String
  username : String
  email : String
  created_at : Nat
  deriving DecidableEq, Repr

structure SongRow where
  id : String
  title : String
  artist : String
  genre : String
  duration : Int
  created_at : Nat
  deriving DecidableEq, Repr

structure PlaylistRow where
  id : String
  name : String
  owner_id : String
  created_at : Nat
  deriving DecidableEq, Repr

structure PlaylistSongRow where
  playlist_id : String
  song_id : String
  added_at : Nat
  deriving DecidableEq, Repr

structure DBState where
  users : List UserRow
  songs : List SongRow
  playlists : List PlaylistRow
  playlist_songs : List PlaylistSongRow
  now : Nat
  deriving DecidableEq, Repr

def emptyDB : DBState := ⟨[], [], [], [], 0⟩

/-- The SQL statements issued by the repositories (with their parameters). -/
inductive DataStmt where
  | insertUser (id username email : String)
  | insertSong (id title artist genre : String) (duration : Int)
  | insertPlaylist (id name owner_id : String)
  | insertPlaylistSong (playlist_id song_id : String)
  | deletePlaylistSongsByPlaylist (playlist_id : String)
  | deletePlaylistById (id : String)
  deriving DecidableEq, Repr

/-- SQLite semantics of one statement over the committed-plus-pending view:
primary-key and unique constraints, foreign keys (enabled via
`PRAGMA foreign_keys = ON` in `connect`), `DEFAULT CURRENT_TIMESTAMP`
columns read the clock, and `DELETE FROM playlists` cascades into
`playlist_songs` (`ON DELETE CASCADE` in `schema.py`). -/
def applyDataStmt (st : DBState) : DataStmt → Except SqlError DBState
  | .insertUser i u e =>
    if st.users.any (fun r => r.id = i) then .error .uniqueViolation
    else if st.users.any (fun r => r.username = u) then .error .uniqueViolation
    else if st.users.any (fun r => r.email = e) then .error .uniqueViolation
    else .ok { st with users := st.users ++ [⟨i, u, e, st.now⟩] }
  | .insertSong i t a g d =>
    if st.songs.any (fun r => r.id = i) then .error .uniqueViolation
    else .ok { st with songs := st.songs ++ [⟨i, t, a, g, d, st.now⟩] }
  | .insertPlaylist i n o =>
    if st.playlists.any (fun r => r.id = i) then .error .uniqueViolation
    else if ¬ st.users.any (fun r => r.id = o) then .error .fkViolation
    else .ok { st with playlists := st.playlists ++ [⟨i, n, o, st.now⟩] }
  | .insertPlaylistSong p s =>
    if st.playlist_songs.any (fun r => r.playlist_id = p ∧ r.song_id = s) then
      .error .uniqueViolation
    else if ¬ st.playlists.any (fun r => r.id = p) then .error .fkViolation
    else if ¬ st.songs.any (fun r => r.id = s) then .error .fkViolation
    else .ok { st with playlist_songs := st.playlist_songs ++ [⟨p, s, st.now⟩] }
  | .deletePlaylistSongsByPlaylist p =>
    .ok { st with playlist_songs := st.playlist_songs.filter (fun r => ¬ r.playlist_id = p) }
  | .deletePlaylistById i =>
    .ok { st with
          playlists := st.playlists.filter (fun r => ¬ r.id = i),
          playlist_songs := st.playlist_songs.filter (fun r => ¬ r.playlist_id = i) }

/-- One `cursor.execute` call: the paired flag injects an arbitrary
storage-engine fault (`sqlite3.Error`) for that execution. -/
def execStmt (st : DBState) (q : DataStmt × Bool) : Except SqlError DBState :=
  if q.2 then .error .ioFault else applyDataStmt st q.1

/-- The `for query, params in queries: cursor.execute(...)` loop body of
`execute_transaction`: executes the statements in order on the pending
view, stopping at the first raised error. -/
def runStmts {σ α : Type} (app : σ → α → Except SqlError σ) : σ → List α → Except SqlError σ
  | st, [] => .ok st
  | st, q :: qs =>
    match app st q with
    | .ok st2 => runStmts app st2 qs
    | .error e => .error e

/-- `DatabaseConnection.execute_transaction`: run every statement, then
`commit`; on any `sqlite3.Error`, `rollback` (the committed state stays the
input state) and re-raise (the first component carries the error). -/
def execute_transaction {σ α : Type} (app : σ → α → Except SqlError σ) (st : σ) (qs : List α) :
    Option SqlError × σ :=
  match runStmts app st qs with
  | .ok st2 => (none, st2)
  | .error e => (some e, st)

/-- `DatabaseConnection.execute_update`: execute one statement, `commit` on
success, `rollback` and re-raise on failure. -/
def execute_update {σ α : Type} (app : σ → α → Except SqlError σ) (st : σ) (q : α) :
    Option SqlError × σ :=
  match app st q with
  | .ok st2 => (none, st2)
  | .error e => (some e, st)

/-- C1: `execute_transaction` runs all statements under one commit: on
success the committed state is the sequential application of every
statement, and if any statement fails the committed state is exactly the
input state (all statements rolled back, the error re-raised) — no partial
effects. -/
theorem executeTransaction_rollback_atomic (qs : List (DataStmt × Bool)) (st : DBState) :
    ((execute_transaction execStmt st qs).1 = none →
      runStmts execStmt st qs = .ok (execute_transaction execStmt st qs).2) ∧
    (∀ e : SqlError, (execute_transaction execStmt st qs).1 = some e →
      (execute_transaction execStmt st qs).2 = st) := by
  constructor
  · intro h
    unfold execute_transaction at *
    cases hr : runStmts execStmt st qs with
    | ok st2 => simp [hr]
    | error e => simp [hr] at h
  · intro e h
    unfold execute_transaction at *
    cases hr : runStmts execStmt st qs with
    | ok st2 => simp [hr] at h
    | error e2 => simp [hr]

/-- C1 witness: a transaction of one valid insert and one invalid
statement leaves zero rows inserted from either statement. -/
theorem executeTransaction_rollback_atomic_wit :
    (execute_transaction execStmt emptyDB
        [(DataStmt.insertSong "s1" "Imagine" "John Lennon" "Rock" 183, false),
         (DataStmt.insertUser "u1" "alice" "alice@example.com", true)]).1 =
      some SqlError.ioFault ∧
    (execute_transaction execStmt emptyDB
        [(DataStmt.insertSong "s1" "Imagine" "John Lennon" "Rock" 183, false),
         (DataStmt.insertUser "u1" "alice" "alice@example.com", true)]).2 = emptyDB := by
  constructor
  · decide
  · exact (executeTransaction_rollback_atomic
      [(DataStmt.insertSong "s1" "Imagine" "John Lennon" "Rock" 183, false),
       (DataStmt.insertUser "u1" "alice" "alice@example.com", true)] emptyDB).2
      SqlError.ioFault (by decide)

deriving instance DecidableEq for Except

/-- ASCII whitespace stripped by Python `str.strip()`. -/
def isPySpace (c : Char) : Bool :=
  c = ' ' || c = '\t' || c = '\n' || c = '\r' || c = '\x0b' || c = '\x0c'

/-- Python `str.strip()` for ASCII whitespace. -/
def pythonStrip (s : String) : String :=
  ⟨((s.data.dropWhile isPySpace).reverse.dropWhile isPySpace).reverse⟩

/-- Python `str.title()` on ASCII data: a letter that follows a non-letter
is uppercased, a letter that follows a letter is lowercased.  The Bool
argument records whether the previous character was a letter. -/
def pyTitleGo : Bool → List Char → List Char
  | _, [] => []
  | prevAlpha, c :: cs =>
    let c2 := if c.isAlpha then (if prevAlpha then c.toLower else c.toUpper) else c
    c2 :: pyTitleGo c.isAlpha cs

def pythonTitle (s : String) : String := ⟨pyTitleGo false s.data⟩

/-- Python `str.lower()` on ASCII data. -/
def pythonLower (s : String) : String := ⟨s.data.map Char.toLower⟩

/-- Python `len` of a string (number of characters). -/
def pyLen (s : String) : Nat := s.data.length

/-- The domain exceptions of `exceptions/custom_exceptions.py` that the
services raise (ValidationError, DuplicateEntityError, EntityNotFoundError,
DatabaseError). -/
inductive ServiceErr where
  | validation (field : String)
  | duplicate (field : String)
  | notFound (entity : String)
  | databaseFailure
  deriving DecidableEq, Repr

/-- `PlaylistRepository.exists`: `SELECT COUNT(*) FROM playlists WHERE id = ?`,
compared with `> 0`. -/
def playlistExistsQ (st : DBState) (pid : String) : Bool :=
  0 < st.playlists.countP (fun r => r.id = pid)

/-- `UserRepository.exists`: `SELECT COUNT(*) FROM users WHERE id = ?` `> 0`. -/
def userExistsQ (st : DBState) (uid : String) : Bool :=
  0 < st.users.countP (fun r => r.id = uid)

/-- `PlaylistRepository.delete`: checks existence, then issues TWO separate
`execute_update` calls — `DELETE FROM playlist_songs WHERE playlist_id = ?`
followed by `DELETE FROM playlists WHERE id = ?` — each committing on its
own.  `f1`/`f2` are the storage-fault flags of the two executions.  The
first component is the committed state after the call, the second the
returned value or re-raised error. -/
def playlistRepoDelete (pid : String) (f1 f2 : Bool) (st : DBState) :
    DBState × Except SqlError Bool :=
  if ¬ playlistExistsQ st pid then (st, .ok false)
  else
    match execute_update execStmt st (DataStmt.deletePlaylistSongsByPlaylist pid, f1) with
    | (some e, st1) => (st1, .error e)
    | (none, st1) =>
      match execute_update execStmt st1 (DataStmt.deletePlaylistById pid, f2) with
      | (some e, st2) => (st2, .error e)
      | (none, st2) => (st2, .ok true)

/-- No junction row is orphaned: every `playlist_songs` row references an
existing playlist. -/
def junctionConsistent (st : DBState) : Bool :=
  st.playlist_songs.all (fun r => st.playlists.any (fun q => q.id = r.playlist_id))

/-- The in-memory `Playlist` model (`models/playlist.py`): id, name,
owner_id (the transient track list plays no role in persistence). -/
structure PlaylistM where
  id : String
  name : String
  owner_id : String
  deriving DecidableEq, Repr

/-- `PlaylistRepository.create`: no field validation at all — it takes the
playlist's id (`hasattr(playlist, 'id')` is always true for a `Playlist`)
and runs `INSERT INTO playlists (id, name, owner_id) VALUES (?, ?, ?)`
through `execute_update`, returning the id. -/
def playlistRepoCreate (p : PlaylistM) (st : DBState) : DBState × Except SqlError String :=
  match execute_update execStmt st (DataStmt.insertPlaylist p.id p.name p.owner_id, false) with
  | (some e, st1) => (st1, .error e)
  | (none, st1) => (st1, .ok p.id)

/-- `PlaylistService._validate_name`: empty or whitespace-only name, or a
stripped length above 100, is a ValidationError. -/
def validatePlaylistName (name : String) : Option ServiceErr :=
  if name = "" || pythonStrip name = "" then some (.validation "name")
  else if 100 < pyLen (pythonStrip name) then some (.validation "name")
  else none

/-- `PlaylistService.create_playlist`: validate the name, check the owner
exists, title-case the stripped name, then persist via the repository
(`fresh` stands for the uuid4 the `Playlist` constructor generates). -/
def playlistServiceCreatePlaylist (name owner_id fresh : String) (st : DBState) :
    DBState × Except ServiceErr PlaylistM :=
  match validatePlaylistName name with
  | some e => (st, .error e)
  | none =>
    if ¬ userExistsQ st owner_id then (st, .error (.notFound "User"))
    else
      let p : PlaylistM := ⟨fresh, pythonTitle (pythonStrip name), owner_id⟩
      match playlistRepoCreate p st with
      | (st1, .error _) => (st1, .error .databaseFailure)
      | (st1, .ok pid) => (st1, .ok { p with id := pid })

/-- A state for the C2 counterexample: one user, one song, one playlist
`"p"` holding song `"s"`. -/
def stC2 : DBState :=
  ⟨[⟨"u", "Alice", "alice@example.com", 0⟩],
   [⟨"s", "Imagine", "John Lennon", "Rock", 183, 0⟩],
   [⟨"p", "Rock Classics", "u", 0⟩],
   [⟨"p", "s", 1⟩], 2⟩

/-- C2 counterexample: `PlaylistRepository.delete` is two separately
committed `execute_update` calls, not one transaction.  When the second
statement fails, the call re-raises, yet the committed state is NOT the
initial state: the junction-row deletion has already been committed while
the playlist row remains — a partial effect, refuting "atomically ... via
an explicit transaction". -/
theorem playlistRepoDelete_midway_commit_cex :
    (playlistRepoDelete "p" false true stC2).2 = .error SqlError.ioFault ∧
    (playlistRepoDelete "p" false true stC2).1.playlist_songs = [] ∧
    (playlistRepoDelete "p" false true stC2).1.playlists = stC2.playlists ∧
    ¬ (playlistRepoDelete "p" false true stC2).1 = stC2 := by
  refine ⟨by decide, by decide, by decide, by decide⟩

/-- Evaluation of `playlistRepoDelete` in all four fault cases. -/
theorem playlistRepoDelete_eq (pid : String) (f1 f2 : Bool) (st : DBState) :
    playlistRepoDelete pid f1 f2 st =
      if ¬ playlistExistsQ st pid then (st, .ok false)
      else if f1 then (st, .error .ioFault)
      else
        if f2 then
          ({ st with playlist_songs := st.playlist_songs.filter (fun r => ¬ r.playlist_id = pid) },
           .error .ioFault)
        else
          ({ st with
              playlists := st.playlists.filter (fun r => ¬ r.id = pid),
              playlist_songs :=
                (st.playlist_songs.filter (fun r => ¬ r.playlist_id = pid)).filter
                  (fun r => ¬ r.playlist_id = pid) },
           .ok true) := by
  by_cases hex : ¬ playlistExistsQ st pid <;>
    cases f1 <;> cases f2 <;>
      simp [playlistRepoDelete, execute_update, execStmt, applyDataStmt, hex]

/-- A sublist of an orphan-free junction list is orphan-free (same playlists). -/
theorem all_any_of_sub (rows rows2 : List PlaylistSongRow) (pls : List PlaylistRow)
    (hsub : ∀ r ∈ rows2, r ∈ rows)
    (h : rows.all (fun r => pls.any (fun q => q.id = r.playlist_id)) = true) :
    rows2.all (fun r => pls.any (fun q => q.id = r.playlist_id)) = true := by
  simp only [List.all_eq_true] at *
  exact fun r hr => h r (hsub r hr)

/-- Removing playlist `pid` together with all its junction rows keeps the
junction orphan-free. -/
theorem all_any_filter_both (rows : List PlaylistSongRow) (pls : List PlaylistRow) (pid : String)
    (h : rows.all (fun r => pls.any (fun q => q.id = r.playlist_id)) = true) :
    (rows.filter (fun r => ¬ r.playlist_id = pid)).all
      (fun r => (pls.filter (fun q => ¬ q.id = pid)).any (fun q => q.id = r.playlist_id)) = true := by
  simp only [List.all_eq_true, List.any_eq_true, List.mem_filter, decide_eq_true_eq] at *
  intro r hr
  obtain ⟨q, hq, hqid⟩ := h r hr.1
  exact ⟨q, ⟨hq, by rw [hqid]; exact hr.2⟩, hqid⟩

/-- C2 (amended): `PlaylistRepository.delete` removes the junction rows of
the playlist before the playlist row, by two sequential auto-committing
`execute_update` calls.  For every fault outcome the committed state keeps
the junction orphan-free (junction rows are deleted first, so orphaned
junction rows never persist — though a fault on the second statement leaves
the junction deletion committed with the playlist row still present), and a
successful `true` return means both the playlist's junction rows and its
playlist row are gone. -/
theorem playlistRepoDelete_junction_first_consistent (pid : String) (f1 f2 : Bool) (st : DBState)
    (h : junctionConsistent st = true) :
    junctionConsistent (playlistRepoDelete pid f1 f2 st).1 = true ∧
    ((playlistRepoDelete pid f1 f2 st).2 = .ok true →
      (playlistRepoDelete pid f1 f2 st).1.playlist_songs.all
          (fun r => ¬ r.playlist_id = pid) = true ∧
      (playlistRepoDelete pid f1 f2 st).1.playlists.all (fun r => ¬ r.id = pid) = true) := by
  rw [playlistRepoDelete_eq]
  by_cases hex : ¬ playlistExistsQ st pid
  · simp only [hex, if_true]
    exact ⟨h, by intro hok; simp at hok⟩
  · cases f1 with
    | true => simp only [hex, if_false, if_true]; exact ⟨h, by intro hok; simp at hok⟩
    | false =>
      cases f2 with
      | true =>
        simp only [hex, if_false, if_true, Bool.false_eq_true]
        constructor
        · exact all_any_of_sub st.playlist_songs _ st.playlists
            (fun r hr => (List.mem_filter.mp hr).1) h
        · intro hok; simp at hok
      | false =>
        simp only [hex, if_false, Bool.false_eq_true]
        refine ⟨?_, fun _ => ⟨?_, ?_⟩⟩
        · exact all_any_of_sub _ _ _
            (fun r hr => (List.mem_filter.mp hr).1)
            (all_any_filter_both st.playlist_songs st.playlists pid h)
        · simp [List.all_eq_true, List.mem_filter]
        · simp [List.all_eq_true, List.mem_filter]

/-- C2 witness: on a consistent store holding playlist `"p"` with one
song, the fault-free delete succeeds and removes the playlist and its
junction rows, keeping the store orphan-free. -/
theorem playlistRepoDelete_junction_first_consistent_wit :
    junctionConsistent stC2 = true ∧
    junctionConsistent (playlistRepoDelete "p" false false stC2).1 = true ∧
    ((playlistRepoDelete "p" false false stC2).2 = .ok true →
      (playlistRepoDelete "p" false false stC2).1.playlist_songs.all
          (fun r => ¬ r.playlist_id = "p") = true ∧
      (playlistRepoDelete "p" false false stC2).1.playlists.all (fun r => ¬ r.id = "p") = true) := by
  refine ⟨by decide, ?_, ?_⟩
  · exact (playlistRepoDelete_junction_first_consistent "p" false false stC2 (by decide)).1
  · exact (playlistRepoDelete_junction_first_consistent "p" false false stC2 (by decide)).2

/-- A store holding just the user `"u"`, for the playlist-creation claims. -/
def stC8 : DBState := ⟨[⟨"u", "Alice", "alice@example.com", 0⟩], [], [], [], 1⟩

/-- C8 counterexample: `PlaylistRepository.create` on a playlist with an
EMPTY name succeeds — it inserts the row and returns the id, raising no
ValidationError, refuting "fails with ValidationError whenever the
playlist's name or owner_id is empty". -/
theorem playlistRepoCreate_empty_name_ok_cex :
    (playlistRepoCreate ⟨"p1", "", "u"⟩ stC8).2 = .ok "p1" ∧
    (playlistRepoCreate ⟨"p1", "", "u"⟩ stC8).1.playlists = [⟨"p1", "", "u", 1⟩] := by
  refine ⟨by decide, by decide⟩

/-- C8 (amended): `PlaylistRepository.create` performs no emptiness
validation at all: for every playlist (empty name or owner_id included)
whose id is fresh and whose owner satisfies the foreign key, it inserts the
row as given and returns the playlist's id; empty names are rejected with a
ValidationError only at the service layer, by
`PlaylistService.create_playlist`. -/
theorem playlistRepoCreate_no_validation (p : PlaylistM) (st : DBState)
    (hid : st.playlists.any (fun r => r.id = p.id) = false)
    (hfk : st.users.any (fun r => r.id = p.owner_id) = true) :
    playlistRepoCreate p st =
      ({ st with playlists := st.playlists ++ [⟨p.id, p.name, p.owner_id, st.now⟩] }, .ok p.id) ∧
    ∀ owner fresh : String,
      playlistServiceCreatePlaylist "" owner fresh st = (st, .error (.validation "name")) := by
  constructor
  · simp [playlistRepoCreate, execute_update, execStmt, applyDataStmt, hid, hfk]
  · intro owner fresh
    rfl

/-- C8 witness: with the fresh id `"p2"` and the existing owner `"u"`, the
repository inserts the (empty-named) row, while the service rejects the
empty name. -/
theorem playlistRepoCreate_no_validation_wit :
    playlistRepoCreate ⟨"p2", "", "u"⟩ stC8 =
      ({ stC8 with playlists := [⟨"p2", "", "u", 1⟩] }, .ok "p2") ∧
    playlistServiceCreatePlaylist "" "u" "p9" stC8 = (stC8, .error (.validation "name")) := by
  have h := playlistRepoCreate_no_validation ⟨"p2", "", "u"⟩ stC8 (by decide) (by decide)
  exact ⟨h.1, h.2 "u" "p9"⟩

/-- The `@abstractmethod` members declared by `BaseRepository`
(`repositories/base_repository.py`), in declaration order. -/
def baseRepositoryAbstractMethods : List String :=
  ["create", "read_by_id", "read_all", "update", "delete", "exists"]

/-- The methods `SongRepository` actually defines
(`repositories/song_repository.py`), beyond `__init__`. -/
def songRepositoryMethods : List String :=
  ["create", "read_by_id", "read_all", "exists", "read_by_artist", "read_by_genre"]

/-- The methods `UserRepository` actually defines
(`repositories/user_repository.py`), beyond `__init__`. -/
def userRepositoryMethods : List String :=
  ["create", "read_by_id", "read_all", "exists", "read_by_owner_id", "read_by_username",
   "read_by_email"]

/-- The methods `PlaylistRepository` actually defines
(`repositories/playlist_repository.py`), beyond `__init__`. -/
def playlistRepositoryMethods : List String :=
  ["create", "read_by_id", "read_all", "exists", "read_by_owner_id", "add_song_to_playlist",
   "get_playlist_songs", "update", "delete", "remove_song_from_playlist"]

/-- The abstract methods a concrete repository leaves unimplemented
(Python's `cls.__abstractmethods__`). -/
def unimplementedAbstract (methods : List String) : List String :=
  baseRepositoryAbstractMethods.filter (fun m => ¬ methods.contains m)

inductive PyError where
  | typeErrorAbstract (remaining : List String)
  deriving DecidableEq, Repr

/-- Python `abc.ABC` semantics: instantiating a class whose
`__abstractmethods__` is non-empty raises `TypeError`. -/
def instantiateRepo (methods : List String) : Except PyError Unit :=
  if unimplementedAbstract methods = [] then .ok ()
  else .error (.typeErrorAbstract (unimplementedAbstract methods))

/-- `SongService.__init__` with `song_repo=None` evaluates
`SongRepository()` (`services/song_service.py`). -/
def songServiceDefaultInit : Except PyError Unit := instantiateRepo songRepositoryMethods

/-- `UserService.__init__` with `user_repo=None` evaluates
`UserRepository()` (`services/user_service.py`). -/
def userServiceDefaultInit : Except PyError Unit := instantiateRepo userRepositoryMethods

/-- C4: `SongRepository` and `UserRepository` leave exactly the abstract
`update` and `delete` unimplemented, so instantiating either raises
TypeError, and so do `SongService()` / `UserService()` built with default
repositories — their update/delete paths are unusable.  (`PlaylistRepository`
by contrast implements every abstract method.) -/
theorem repositories_abstract_typeError :
    unimplementedAbstract songRepositoryMethods = ["update", "delete"] ∧
    unimplementedAbstract userRepositoryMethods = ["update", "delete"] ∧
    instantiateRepo songRepositoryMethods = .error (.typeErrorAbstract ["update", "delete"]) ∧
    instantiateRepo userRepositoryMethods = .error (.typeErrorAbstract ["update", "delete"]) ∧
    songServiceDefaultInit = .error (.typeErrorAbstract ["update", "delete"]) ∧
    userServiceDefaultInit = .error (.typeErrorAbstract ["update", "delete"]) ∧
    unimplementedAbstract playlistRepositoryMethods = [] := by
  refine ⟨by decide, by decide, by decide, by decide, by decide, by decide, by decide⟩

/-- C3: the Song repository does NOT provide `update` — it is not among
`SongRepository`'s methods, remains an unimplemented abstract method, and
therefore `SongRepository()` (as called by `SongService.update_song`'s
default wiring) raises TypeError instead of offering an
`update(song) -> bool`. -/
theorem songRepository_update_missing :
    songRepositoryMethods.contains "update" = false ∧
    (unimplementedAbstract songRepositoryMethods).contains "update" = true ∧
    instantiateRepo songRepositoryMethods = .error (.typeErrorAbstract ["update", "delete"]) := by
  refine ⟨by decide, by decide, by decide⟩

/-- The in-memory `Song` model (`models/song.py` over `audio_track.py`):
id (uuid4 from `AudioTrack.__init__`), title, artist, genre, duration. -/
structure SongM where
  id : String
  title : String
  artist : String
  genre : String
  duration : Int
  deriving DecidableEq, Repr

/-- `TrackFactory.create_song` (`services/track_factory.py`): raises
ValueError only when `duration < 0`; otherwise builds the `Song` (with
`fresh` as the generated uuid4). -/
def trackFactoryCreateSong (title : String) (duration : Int) (artist genre fresh : String) :
    Except Unit SongM :=
  if duration < 0 then .error () else .ok ⟨fresh, title, artist, genre, duration⟩

/-- `SongService._validate_title`: empty/whitespace-only or stripped length
above 200 is a ValidationError. -/
def validateTitle (title : String) : Option ServiceErr :=
  if title = "" || pythonStrip title = "" then some (.validation "title")
  else if 200 < pyLen (pythonStrip title) then some (.validation "title")
  else none

/-- `SongService._validate_artist`: empty/whitespace-only is a
ValidationError. -/
def validateArtist (artist : String) : Option ServiceErr :=
  if artist = "" || pythonStrip artist = "" then some (.validation "artist") else none

/-- `SongService._validate_genre`: empty/whitespace-only is a
ValidationError. -/
def validateGenre (genre : String) : Option ServiceErr :=
  if genre = "" || pythonStrip genre = "" then some (.validation "genre") else none

/-- `SongService._validate_duration`: below `MIN_DURATION = 1` or above
`MAX_DURATION = 36000` is a ValidationError (the `isinstance(duration, int)`
check is vacuous here since the embedding types `duration : Int`). -/
def validateDuration (duration : Int) : Option ServiceErr :=
  if duration < 1 then some (.validation "duration")
  else if 36000 < duration then some (.validation "duration")
  else none

/-- `SongRepository.create`: `INSERT INTO songs (id, title, artist, genre,
duration) VALUES (?, ?, ?, ?, ?)` via `execute_update`, returning the
song's id. -/
def songRepoCreate (song : SongM) (st : DBState) : DBState × Except SqlError String :=
  match execute_update execStmt st
      (DataStmt.insertSong song.id song.title song.artist song.genre song.duration, false) with
  | (some e, st1) => (st1, .error e)
  | (none, st1) => (st1, .ok song.id)

/-- `SongService.create_song`: validate title, artist, genre, duration (in
that order), title-case the stripped text fields, build the song through
`TrackFactory` (ValueError becomes `ValidationError("song", ...)`), then
persist through the repository. -/
def songServiceCreateSong (title artist genre : String) (duration : Int) (fresh : String)
    (st : DBState) : DBState × Except ServiceErr SongM :=
  match validateTitle title with
  | some e => (st, .error e)
  | none =>
  match validateArtist artist with
  | some e => (st, .error e)
  | none =>
  match validateGenre genre with
  | some e => (st, .error e)
  | none =>
  match validateDuration duration with
  | some e => (st, .error e)
  | none =>
    let t := pythonTitle (pythonStrip title)
    let a := pythonTitle (pythonStrip artist)
    let g := pythonTitle (pythonStrip genre)
    match trackFactoryCreateSong t duration a g fresh with
    | .error _ => (st, .error (.validation "song"))
    | .ok song =>
      match songRepoCreate song st with
      | (st1, .error _) => (st1, .error .databaseFailure)
      | (st1, .ok _) => (st1, .ok song)

def isValidationErr {α : Type} : Except ServiceErr α → Bool
  | .error (.validation _) => true
  | _ => false

theorem validateTitle_some (title : String) (e : ServiceErr) (h : validateTitle title = some e) :
    e = .validation "title" := by
  unfold validateTitle at h
  split at h <;> simp_all

theorem validateArtist_some (artist : String) (e : ServiceErr)
    (h : validateArtist artist = some e) : e = .validation "artist" := by
  unfold validateArtist at h
  split at h <;> simp_all

theorem validateGenre_some (genre : String) (e : ServiceErr)
    (h : validateGenre genre = some e) : e = .validation "genre" := by
  unfold validateGenre at h
  split at h <;> simp_all

/-- C6 counterexample: the song factory does NOT reject duration 0 —
`TrackFactory.create_song` only raises for `duration < 0`, so a zero-length
song is constructed successfully, refuting "in particular the song factory
rejects such durations at creation". -/
theorem trackFactory_accepts_zero_duration_cex :
    trackFactoryCreateSong "Title" 0 "Artist" "Genre" "s0" =
      .ok ⟨"s0", "Title", "Artist", "Genre", 0⟩ := by
  decide

/-- C6 (amended): creating a song with duration -1 or 0 through
`SongService.create_song` raises a ValidationError before any persistence
attempt (the store is untouched); the factory itself rejects only negative
durations — it raises ValueError for -1 but accepts 0. -/
theorem createSong_nonpositive_duration_rejected (title artist genre fresh : String)
    (st : DBState) :
    isValidationErr (songServiceCreateSong title artist genre (-1) fresh st).2 = true ∧
    (songServiceCreateSong title artist genre (-1) fresh st).1 = st ∧
    isValidationErr (songServiceCreateSong title artist genre 0 fresh st).2 = true ∧
    (songServiceCreateSong title artist genre 0 fresh st).1 = st ∧
    trackFactoryCreateSong title (-1) artist genre fresh = .error () := by
  have hfac : trackFactoryCreateSong title (-1) artist genre fresh = .error () := by
    simp [trackFactoryCreateSong, show ((-1 : Int) < 0) from by norm_num]
  have key : ∀ d : Int, validateDuration d = some (.validation "duration") →
      isValidationErr (songServiceCreateSong title artist genre d fresh st).2 = true ∧
      (songServiceCreateSong title artist genre d fresh st).1 = st := by
    intro d hd
    unfold songServiceCreateSong
    cases ht : validateTitle title with
    | some e => simp [validateTitle_some title e ht, isValidationErr]
    | none =>
      cases ha : validateArtist artist with
      | some e => simp [validateArtist_some artist e ha, isValidationErr]
      | none =>
        cases hg : validateGenre genre with
        | some e => simp [validateGenre_some genre e hg, isValidationErr]
        | none => simp [hd, isValidationErr]
  have h1 := key (-1) (by simp [validateDuration, show ((-1 : Int) < 1) from by norm_num])
  have h0 := key 0 (by simp [validateDuration, show ((0 : Int) < 1) from by norm_num])
  exact ⟨h1.1, h1.2, h0.1, h0.2, hfac⟩

/-- `username.replace('_', '').replace('-', '')`. -/
def stripUnderscoreHyphen (s : String) : String :=
  ⟨s.data.filter (fun c => ¬ (c = '_' || c = '-'))⟩

/-- Python `str.isalnum()` on ASCII data: non-empty and all characters
alphanumeric. -/
def pyIsAlnum (s : String) : Bool :=
  !s.data.isEmpty && s.data.all Char.isAlphanum

/-- `UserService._validate_username`: non-empty after strip, length within
[3, 30], and alphanumeric once underscores and hyphens are removed. -/
def validateUsername (username : String) : Option ServiceErr :=
  if username = "" || pythonStrip username = "" then some (.validation "username")
  else if pyLen (pythonStrip username) < 3 then some (.validation "username")
  else if 30 < pyLen (pythonStrip username) then some (.validation "username")
  else if !pyIsAlnum (stripUnderscoreHyphen (pythonStrip username)) then
    some (.validation "username")
  else none

/-- Character class `[a-zA-Z0-9._%+-]` of `UserService.EMAIL_PATTERN`. -/
def emailLocalChar (c : Char) : Bool :=
  c.isAlphanum || c = '.' || c = '_' || c = '%' || c = '+' || c = '-'

/-- Character class `[a-zA-Z0-9.-]` of `UserService.EMAIL_PATTERN`. -/
def emailDomChar (c : Char) : Bool :=
  c.isAlphanum || c = '.' || c = '-'

/-- Matching against `^[a-zA-Z0-9._%+-]+@[a-zA-Z0-9.-]+\.[a-zA-Z]{2,}$`
without the `$`-before-trailing-newline rule: one `@` separating a
non-empty local part from a domain whose segment after its last dot is at
least two letters.  (Since `@` is in neither class and the part after the
separating dot must be pure letters, the separating dot is necessarily the
domain's last dot, so this decomposition is equivalent to the regex.) -/
def emailCoreMatch (cs : List Char) : Bool :=
  let loc := cs.takeWhile emailLocalChar
  match cs.drop loc.length with
  | '@' :: dom =>
    let tld := (dom.reverse.takeWhile (fun c => ¬ c = '.')).reverse
    !loc.isEmpty && dom.all emailDomChar && dom.contains '.' &&
      decide (tld.length + 2 ≤ dom.length) && decide (2 ≤ tld.length) && tld.all Char.isAlpha
  | _ => false

/-- Python `re.match` with the anchored pattern: `$` also matches just
before one trailing newline. -/
def matchEmailPattern (s : String) : Bool :=
  emailCoreMatch s.data ||
    (match s.data.getLast? with
     | some c => c = '\n' && emailCoreMatch s.data.dropLast
     | none => false)

/-- `UserService._validate_email`: non-empty after strip and matching
`EMAIL_PATTERN`. -/
def validateEmail (email : String) : Option ServiceErr :=
  if email = "" || pythonStrip email = "" then some (.validation "email")
  else if !matchEmailPattern (pythonStrip email) then some (.validation "email")
  else none

/-- `UserRepository.read_by_username`: exact-match
`SELECT ... FROM users WHERE username = ?`, first row if any. -/
def readByUsername (st : DBState) (username : String) : Option UserRow :=
  st.users.find? (fun r => r.username = username)

/-- `UserRepository.read_by_email`: exact-match
`SELECT ... FROM users WHERE email = ?`, first row if any. -/
def readByEmail (st : DBState) (email : String) : Option UserRow :=
  st.users.find? (fun r => r.email = email)

/-- `UserService.create_user`: validate, then normalize
(`username.strip().title()`, `email.strip().lower()`), pre-check duplicates
by username then by email (raising DuplicateEntityError), and insert via
`UserRepository.create` (`fresh` is the uuid4 generated by `User.__init__`;
repository exceptions become DatabaseError). -/
def userServiceCreateUser (username email fresh : String) (st : DBState) :
    DBState × Except ServiceErr String :=
  match validateUsername username with
  | some e => (st, .error e)
  | none =>
  match validateEmail email with
  | some e => (st, .error e)
  | none =>
    let u := pythonTitle (pythonStrip username)
    let em := pythonLower (pythonStrip email)
    match readByUsername st u with
    | some _ => (st, .error (.duplicate "username"))
    | none =>
    match readByEmail st em with
    | some _ => (st, .error (.duplicate "email"))
    | none =>
      match execute_update execStmt st (DataStmt.insertUser fresh u em, false) with
      | (some _, st1) => (st1, .error .databaseFailure)
      | (none, st1) => (st1, .ok fresh)

/-- `UserService.get_user_by_username`: passes the argument UNCHANGED to
`UserRepository.read_by_username`; raises EntityNotFoundError when no row
matches exactly. -/
def userServiceGetUserByUsername (username : String) (st : DBState) :
    Except ServiceErr UserRow :=
  match readByUsername st username with
  | some u => .ok u
  | none => .error (.notFound "User")

/-- C10: username lookup does not round-trip through creation's
normalization: `create_user` title-cases `"john_doe"` to `"John_Doe"`
before storing, but `get_user_by_username "john_doe"` queries the raw
string exactly, so the freshly created user is not found and
EntityNotFoundError is raised. -/
theorem createUser_lookup_mismatch :
    pythonTitle "john_doe" = "John_Doe" ∧
    (userServiceCreateUser "john_doe" "john@example.com" "u1" emptyDB).2 = .ok "u1" ∧
    (userServiceCreateUser "john_doe" "john@example.com" "u1" emptyDB).1.users =
      [⟨"u1", "John_Doe", "john@example.com", 0⟩] ∧
    userServiceGetUserByUsername "john_doe"
        (userServiceCreateUser "john_doe" "john@example.com" "u1" emptyDB).1 =
      .error (.notFound "User") := by
  refine ⟨by decide, by decide, by decide, by decide⟩

/-- `find?` over a list extended with a matching element is always some. -/
theorem find?_append_single_isSome {α : Type} (l : List α) (p : α → Bool) (a : α)
    (h : p a = true) : ((l ++ [a]).find? p).isSome = true := by
  rw [List.find?_isSome]
  exact ⟨a, by simp, h⟩

/-- A successful `INSERT INTO users` appends exactly one row. -/
theorem applyDataStmt_insertUser_ok (st st1 : DBState) (i u em : String)
    (h : applyDataStmt st (.insertUser i u em) = .ok st1) :
    st1 = { st with users := st.users ++ [⟨i, u, em, st.now⟩] } := by
  simp only [applyDataStmt] at h
  repeat' split at h
  all_goals simp_all

/-- A fault-free `execute_update` of a user insert that commits appends
exactly one row. -/
theorem execute_update_insertUser_ok (st st1 : DBState) (i u em : String)
    (h : execute_update execStmt st (DataStmt.insertUser i u em, false) = (none, st1)) :
    st1 = { st with users := st.users ++ [⟨i, u, em, st.now⟩] } := by
  unfold execute_update at h
  cases he : execStmt st (DataStmt.insertUser i u em, false) with
  | ok st2 =>
    rw [he] at h
    simp only [Prod.mk.injEq] at h
    rw [← h.2]
    exact applyDataStmt_insertUser_ok st st2 i u em (by simpa [execStmt] using he)
  | error e =>
    rw [he] at h
    simp at h

/-- A successful `create_user` call appends exactly one user row, holding
the title-cased username and the lowercased email. -/
theorem userServiceCreateUser_ok (username email fresh r : String) (st st1 : DBState)
    (h : userServiceCreateUser username email fresh st = (st1, .ok r)) :
    st1.users = st.users ++
      [⟨fresh, pythonTitle (pythonStrip username), pythonLower (pythonStrip email), st.now⟩] := by
  unfold userServiceCreateUser at h
  repeat' split at h
  all_goals simp_all
  cases hru : readByUsername st (pythonTitle (pythonStrip username)) with
  | some w => rw [hru] at h; simp at h
  | none =>
    rw [hru] at h
    cases hre : readByEmail st (pythonLower (pythonStrip email)) with
    | some w => rw [hre] at h; simp at h
    | none =>
      rw [hre] at h
      cases hex : execute_update execStmt st
          (DataStmt.insertUser fresh (pythonTitle (pythonStrip username))
            (pythonLower (pythonStrip email)), false) with
      | mk o st2 =>
        rw [hex] at h
        cases o with
        | some e => simp at h
        | none =>
          simp only [Prod.mk.injEq] at h
          rw [← h.1, execute_update_insertUser_ok st st2 _ _ _ hex]

/-- C5: after a successful `create_user`, a second `create_user` whose
username is equal after case-normalization (`strip().title()`) raises
DuplicateEntityError on username; likewise, one whose email is equal after
normalization (`strip().lower()`) — when the username pre-check passes —
raises DuplicateEntityError on email.  The service pre-checks by username,
then by email, before the insert. -/
theorem createUser_duplicate_raises (u1 e1 f1 u2 e2 f2 r : String) (st st1 : DBState)
    (h1 : userServiceCreateUser u1 e1 f1 st = (st1, .ok r))
    (hv : validateUsername u2 = none) (he : validateEmail e2 = none) :
    (pythonTitle (pythonStrip u2) = pythonTitle (pythonStrip u1) →
      userServiceCreateUser u2 e2 f2 st1 = (st1, .error (.duplicate "username"))) ∧
    (readByUsername st1 (pythonTitle (pythonStrip u2)) = none →
      pythonLower (pythonStrip e2) = pythonLower (pythonStrip e1) →
      userServiceCreateUser u2 e2 f2 st1 = (st1, .error (.duplicate "email"))) := by
  have husers := userServiceCreateUser_ok u1 e1 f1 r st st1 h1
  constructor
  · intro hequ
    have hsome : (readByUsername st1 (pythonTitle (pythonStrip u2))).isSome = true := by
      unfold readByUsername
      rw [husers, hequ]
      exact find?_append_single_isSome _ _ _ (by simp)
    cases hfind : readByUsername st1 (pythonTitle (pythonStrip u2)) with
    | none => rw [hfind] at hsome; simp at hsome
    | some w =>
      unfold userServiceCreateUser
      simp [hv, he, hfind]
  · intro hnone hemail
    have hsome : (readByEmail st1 (pythonLower (pythonStrip e2))).isSome = true := by
      unfold readByEmail
      rw [husers, hemail]
      exact find?_append_single_isSome _ _ _ (by simp)
    cases hfind : readByEmail st1 (pythonLower (pythonStrip e2)) with
    | none => rw [hfind] at hsome; simp at hsome
    | some w =>
      unfold userServiceCreateUser
      simp [hv, he, hnone, hfind]

/-- The store after the successful creation of user `"alice"`. -/
def stW : DBState := ⟨[⟨"u1", "Alice", "alice@example.com", 0⟩], [], [], [], 0⟩

/-- C5 witness: after creating `"alice"`/`"alice@example.com"`, creating
`"ALICE"` raises the username duplicate, and creating `"bobby"` with
`"ALICE@EXAMPLE.COM"` raises the email duplicate. -/
theorem createUser_duplicate_raises_wit :
    userServiceCreateUser "ALICE" "bob@example.com" "u2" stW =
      (stW, .error (.duplicate "username")) ∧
    userServiceCreateUser "bobby" "ALICE@EXAMPLE.COM" "u3" stW =
      (stW, .error (.duplicate "email")) := by
  have h1 : userServiceCreateUser "alice" "alice@example.com" "u1" emptyDB = (stW, .ok "u1") := by
    decide
  have hA := createUser_duplicate_raises "alice" "alice@example.com" "u1" "ALICE"
    "bob@example.com" "u2" "u1" emptyDB stW h1 (by decide) (by decide)
  have hB := createUser_duplicate_raises "alice" "alice@example.com" "u1" "bobby"
    "ALICE@EXAMPLE.COM" "u3" "u1" emptyDB stW h1 (by decide) (by decide)
  exact ⟨hA.1 (by decide), hB.2 (by decide) (by decide)⟩

/-- A successful `INSERT INTO playlist_songs` appends exactly one junction
row stamped with the current clock. -/
theorem applyDataStmt_insertPlaylistSong_ok (st st1 : DBState) (p s : String)
    (h : applyDataStmt st (.insertPlaylistSong p s) = .ok st1) :
    st1 = { st with playlist_songs := st.playlist_songs ++ [⟨p, s, st.now⟩] } := by
  simp only [applyDataStmt] at h
  repeat' split at h
  all_goals simp_all

/-- A fault-free committed `execute_update` of a junction insert appends
exactly one row. -/
theorem execute_update_insertPlaylistSong_ok (st st1 : DBState) (p s : String)
    (h : execute_update execStmt st (DataStmt.insertPlaylistSong p s, false) = (none, st1)) :
    st1 = { st with playlist_songs := st.playlist_songs ++ [⟨p, s, st.now⟩] } := by
  unfold execute_update at h
  cases he : execStmt st (DataStmt.insertPlaylistSong p s, false) with
  | ok st2 =>
    rw [he] at h
    simp only [Prod.mk.injEq] at h
    rw [← h.2]
    exact applyDataStmt_insertPlaylistSong_ok st st2 p s (by simpa [execStmt] using he)
  | error e =>
    rw [he] at h
    simp at h

/-- The database clock advancing between operations (`CURRENT_TIMESTAMP`
is read from the environment at execution time). -/
def setNow (t : Nat) (st : DBState) : DBState := { st with now := t }

/-- `PlaylistRepository.add_song_to_playlist`: `INSERT INTO playlist_songs
(playlist_id, song_id) VALUES (?, ?)` via `execute_update` (`added_at`
takes its `DEFAULT CURRENT_TIMESTAMP`), returning True; errors re-raise. -/
def playlistRepoAddSong (pid sid : String) (st : DBState) : DBState × Except SqlError Bool :=
  match execute_update execStmt st (DataStmt.insertPlaylistSong pid sid, false) with
  | (some e, st1) => (st1, .error e)
  | (none, st1) => (st1, .ok true)

/-- An add executed when the wall clock reads `t`. -/
def addSongAt (t : Nat) (pid sid : String) (st : DBState) : DBState × Except SqlError Bool :=
  playlistRepoAddSong pid sid (setNow t st)

theorem addSongAt_ok (t : Nat) (pid sid : String) (st : DBState)
    (h : (addSongAt t pid sid st).2 = .ok true) :
    (addSongAt t pid sid st).1 =
      { st with now := t, playlist_songs := st.playlist_songs ++ [⟨pid, sid, t⟩] } := by
  unfold addSongAt playlistRepoAddSong at h
  cases hex : execute_update execStmt (setNow t st) (DataStmt.insertPlaylistSong pid sid, false) with
  | mk o st2 =>
    rw [hex] at h
    cases o with
    | some e => simp at h
    | none =>
      have hst2 := execute_update_insertPlaylistSong_ok (setNow t st) st2 pid sid hex
      unfold addSongAt playlistRepoAddSong
      rw [hex]
      simpa [setNow] using hst2

/-- Insertion into a list kept ascending by `added_at` (ties keep arrival
order), the embedding of `ORDER BY added_at`. -/
def insertByAdded (r : PlaylistSongRow) : List PlaylistSongRow → List PlaylistSongRow
  | [] => [r]
  | x :: xs => if r.added_at < x.added_at then r :: x :: xs else x :: insertByAdded r xs

/-- Sorting the filtered junction rows by `added_at` ascending. -/
def orderByAdded : List PlaylistSongRow → List PlaylistSongRow
  | [] => []
  | x :: xs => insertByAdded x (orderByAdded xs)

/-- `PlaylistRepository.get_playlist_songs`: `SELECT song_id FROM
playlist_songs WHERE playlist_id = ? ORDER BY added_at`. -/
def getPlaylistSongs (pid : String) (st : DBState) : List String :=
  (orderByAdded (st.playlist_songs.filter (fun r => r.playlist_id = pid))).map
    (fun r => r.song_id)

theorem orderByAdded_three (r1 r2 r3 : PlaylistSongRow) (h12 : r1.added_at < r2.added_at)
    (h23 : r2.added_at < r3.added_at) : orderByAdded [r1, r2, r3] = [r1, r2, r3] := by
  simp [orderByAdded, insertByAdded, h12, h23]

/-- C7: adding songs S1, S2, S3 (in that order, at strictly increasing
`added_at` times) to a playlist holding no junction rows, then reading its
tracks, returns them in insertion order [S1, S2, S3] — `get_playlist_songs`
orders by `added_at` ascending, not by id or scan order. -/
theorem getPlaylistSongs_insertion_order (st : DBState) (pid s1 s2 s3 : String)
    (t1 t2 t3 : Nat)
    (hempty : st.playlist_songs.filter (fun r => r.playlist_id = pid) = [])
    (h12 : t1 < t2) (h23 : t2 < t3)
    (h1 : (addSongAt t1 pid s1 st).2 = .ok true)
    (h2 : (addSongAt t2 pid s2 (addSongAt t1 pid s1 st).1).2 = .ok true)
    (h3 : (addSongAt t3 pid s3 (addSongAt t2 pid s2 (addSongAt t1 pid s1 st).1).1).2 =
      .ok true) :
    getPlaylistSongs pid
      (addSongAt t3 pid s3 (addSongAt t2 pid s2 (addSongAt t1 pid s1 st).1).1).1 =
      [s1, s2, s3] := by
  have e1 := addSongAt_ok t1 pid s1 st h1
  rw [e1] at h2 h3 ⊢
  have e2 := addSongAt_ok t2 pid s2 _ h2
  rw [e2] at h3 ⊢
  have e3 := addSongAt_ok t3 pid s3 _ h3
  rw [e3]
  unfold getPlaylistSongs
  simp only [List.filter_append, hempty, List.nil_append]
  rw [show (List.filter (fun r => decide (r.playlist_id = pid))
        [(⟨pid, s1, t1⟩ : PlaylistSongRow)]) = [⟨pid, s1, t1⟩] by simp,
     show (List.filter (fun r => decide (r.playlist_id = pid))
        [(⟨pid, s2, t2⟩ : PlaylistSongRow)]) = [⟨pid, s2, t2⟩] by simp,
     show (List.filter (fun r => decide (r.playlist_id = pid))
        [(⟨pid, s3, t3⟩ : PlaylistSongRow)]) = [⟨pid, s3, t3⟩] by simp]
  have happ : ([(⟨pid, s1, t1⟩ : PlaylistSongRow)] ++ [⟨pid, s2, t2⟩] ++ [⟨pid, s3, t3⟩]) =
      [⟨pid, s1, t1⟩, ⟨pid, s2, t2⟩, ⟨pid, s3, t3⟩] := by simp
  rw [happ, orderByAdded_three ⟨pid, s1, t1⟩ ⟨pid, s2, t2⟩ ⟨pid, s3, t3⟩ h12 h23]
  simp

/-- A store with one user, three songs and the empty playlist `"p"`. -/
def stC7 : DBState :=
  ⟨[⟨"u", "Alice", "alice@example.com", 0⟩],
   [⟨"s1", "First", "Art", "Rock", 100, 0⟩, ⟨"s2", "Second", "Art", "Rock", 200, 0⟩,
    ⟨"s3", "Third", "Art", "Rock", 300, 0⟩],
   [⟨"p", "Mix", "u", 0⟩], [], 0⟩

/-- C7 witness: adding `"s1"`, `"s2"`, `"s3"` at times 1 < 2 < 3 to the
empty playlist `"p"` and reading it back yields `["s1", "s2", "s3"]`. -/
theorem getPlaylistSongs_insertion_order_wit :
    getPlaylistSongs "p"
      (addSongAt 3 "p" "s3" (addSongAt 2 "p" "s2" (addSongAt 1 "p" "s1" stC7).1).1).1 =
      ["s1", "s2", "s3"] := by
  exact getPlaylistSongs_insertion_order stC7 "p" "s1" "s2" "s3" 1 2 3 (by decide) (by decide)
    (by decide) (by decide) (by decide) (by decide)

structure TableDef where
  name : String
  columns : List String
  deriving DecidableEq, Repr

structure SchemaState where
  tables : List TableDef
  indexes : List String
  deriving DecidableEq, Repr

/-- The only schema statements `initialize_database` issues are the four
`CREATE TABLE IF NOT EXISTS`; there is no `CREATE INDEX` statement anywhere
in `schema.py`. -/
inductive SchemaStmt where
  | createTableIfNotExists (t : TableDef)
  deriving DecidableEq, Repr

def hasTable (st : SchemaState) (n : String) : Bool :=
  st.tables.any (fun td => td.name = n)

/-- `CREATE TABLE IF NOT EXISTS`: a no-op (and no error) when a table of
that name exists, otherwise the table is added.  Indexes are untouched. -/
def createTableFn (st : SchemaState) (t : TableDef) : SchemaState :=
  if hasTable st t.name then st else { st with tables := st.tables ++ [t] }

def applySchemaStmt (st : SchemaState) : SchemaStmt → Except SqlError SchemaState
  | .createTableIfNotExists t => .ok (createTableFn st t)

def usersTable : TableDef := ⟨"users", ["id", "username", "email", "created_at"]⟩

def songsTable : TableDef :=
  ⟨"songs", ["id", "title", "artist", "genre", "duration", "created_at"]⟩

def playlistsTable : TableDef := ⟨"playlists", ["id", "name", "owner_id", "created_at"]⟩

def playlistSongsTable : TableDef :=
  ⟨"playlist_songs", ["playlist_id", "song_id", "added_at"]⟩

/-- `initialize_database` (`database/schema.py`): the four
`CREATE TABLE IF NOT EXISTS` statements run through `execute_transaction`. -/
def initDatabase (st : SchemaState) : Option SqlError × SchemaState :=
  execute_transaction applySchemaStmt st
    [.createTableIfNotExists usersTable, .createTableIfNotExists songsTable,
     .createTableIfNotExists playlistsTable, .createTableIfNotExists playlistSongsTable]

def emptySchema : SchemaState := ⟨[], []⟩

theorem initDatabase_eq (st : SchemaState) :
    initDatabase st =
      (none, createTableFn (createTableFn (createTableFn (createTableFn st usersTable)
        songsTable) playlistsTable) playlistSongsTable) := rfl

theorem hasTable_createTableFn_self (st : SchemaState) (t : TableDef) :
    hasTable (createTableFn st t) t.name = true := by
  unfold createTableFn
  by_cases h : hasTable st t.name = true
  · simp [h]
  · rw [if_neg (by simp [h])]
    unfold hasTable at *
    simp [List.any_append]

theorem hasTable_createTableFn_mono (st : SchemaState) (t : TableDef) (n : String)
    (h : hasTable st n = true) : hasTable (createTableFn st t) n = true := by
  unfold createTableFn
  by_cases ht : hasTable st t.name = true
  · simp [ht, h]
  · rw [if_neg (by simp [ht])]
    unfold hasTable at *
    simp [List.any_append]
    simp at h
    exact Or.inl h

theorem createTableFn_indexes (st : SchemaState) (t : TableDef) :
    (createTableFn st t).indexes = st.indexes := by
  unfold createTableFn
  split <;> rfl

theorem createTableFn_noop (st : SchemaState) (t : TableDef) (h : hasTable st t.name = true) :
    createTableFn st t = st := by
  unfold createTableFn
  simp [h]

/-- C9 counterexample: `initialize_database` creates only the four tables
and NO index whatsoever — in particular no index on the foreign-key
columns `playlists.owner_id`, `playlist_songs.playlist_id`,
`playlist_songs.song_id` — refuting "creates ... tables and indices on
foreign-key columns". -/
theorem initDatabase_no_indexes_cex :
    (initDatabase emptySchema).1 = none ∧
    (initDatabase emptySchema).2.tables =
      [usersTable, songsTable, playlistsTable, playlistSongsTable] ∧
    (initDatabase emptySchema).2.indexes = [] := by
  refine ⟨by decide, by decide, by decide⟩

/-- C9 (amended): `initialize_database` creates the `users`, `songs`,
`playlists` and `playlist_songs` tables if they do not exist (but no
indices: the index set is left untouched), raises no error, and calling it
twice in a row is idempotent — the second call errors neither and leaves
the schema identical. -/
theorem initDatabase_idempotent (st : SchemaState) :
    (initDatabase st).1 = none ∧
    (hasTable (initDatabase st).2 "users" = true ∧
     hasTable (initDatabase st).2 "songs" = true ∧
     hasTable (initDatabase st).2 "playlists" = true ∧
     hasTable (initDatabase st).2 "playlist_songs" = true) ∧
    (initDatabase st).2.indexes = st.indexes ∧
    initDatabase (initDatabase st).2 = (none, (initDatabase st).2) := by
  have heq := initDatabase_eq st
  have hu : hasTable (initDatabase st).2 "users" = true := by
    rw [heq]
    exact hasTable_createTableFn_mono _ _ _ (hasTable_createTableFn_mono _ _ _
      (hasTable_createTableFn_mono _ _ _ (hasTable_createTableFn_self st usersTable)))
  have hs : hasTable (initDatabase st).2 "songs" = true := by
    rw [heq]
    exact hasTable_createTableFn_mono _ _ _ (hasTable_createTableFn_mono _ _ _
      (hasTable_createTableFn_self _ songsTable))
  have hp : hasTable (initDatabase st).2 "playlists" = true := by
    rw [heq]
    exact hasTable_createTableFn_mono _ _ _ (hasTable_createTableFn_self _ playlistsTable)
  have hps : hasTable (initDatabase st).2 "playlist_songs" = true := by
    rw [heq]
    exact hasTable_createTableFn_self _ playlistSongsTable
  have hidx : (initDatabase st).2.indexes = st.indexes := by
    rw [heq]
    simp [createTableFn_indexes]
  have hidem : initDatabase (initDatabase st).2 = (none, (initDatabase st).2) := by
    rw [initDatabase_eq ((initDatabase st).2)]
    rw [createTableFn_noop ((initDatabase st).2) usersTable hu,
      createTableFn_noop ((initDatabase st).2) songsTable hs,
      createTableFn_noop ((initDatabase st).2) playlistsTable hp,
      createTableFn_noop ((initDatabase st).2) playlistSongsTable hps]
  exact ⟨by rw [heq], ⟨hu, hs, hp, hps⟩, hidx, hidem⟩
